import Mathlib

/-!
Verification of the RippleSafe connection-resilience layer and caching
utilities.

This file gives a shallow embedding of the code that backs the spec's
testable properties:

* the `ConnectionManager` singleton in the shared xrpl utility module
  (prefix `cm`): promise-deduplicated `ensureConnection`, `disconnect`,
  and the 30000 ms cleanup timeout;
* the `XrplContext` provider's `ensureConnection` retry loop (prefix `xc`):
  node rotation, exponential backoff, the `maxAttempts` bound, and the
  120000 ms idle timer;
* the `WalletContext` balance cache (`setCachedBalance` / `getCachedBalance`);
* `formatCurrencyCode`, `getBalance` and `getTrustlines` from the xrpl
  utility module.

Timers are modelled with virtual time: a pending `setTimeout` is the
`Option Nat` expiry instant it would fire at.  JavaScript strings are
modelled as Lean strings; `String.prototype.includes` is the substring
test `includesStr` below.  Concurrency (interleaving of `async` bodies at
`await` points) is modelled by explicit transition systems further down.
-/

/-! ## JavaScript string helpers -/

/-- Does the list `hay` start with `needle`?  Helper for `includesStr`. -/
def listStartsWith : List Char → List Char → Bool
  | [], _ => true
  | _ :: _, [] => false
  | n :: ns, h :: hs => n == h && listStartsWith ns hs

/-- Does `needle` occur as a contiguous run inside `hay`? -/
def containsSeq (needle : List Char) : List Char → Bool
  | [] => needle.isEmpty
  | c :: rest => listStartsWith needle (c :: rest) || containsSeq needle rest

/-- Model of JavaScript `s.includes(sub)`: case-sensitive substring test. -/
def includesStr (s sub : String) : Bool :=
  containsSeq sub.data s.data

/-! ## Constants from the sources -/

/-- WalletContext.tsx line 31: cache entries live for 30000 ms. -/
def CACHE_DURATION : Nat := 30000

/-- XrplContext.tsx line 27: initial backoff time. -/
def RECONNECT_DELAY : Nat := 2000

/-- XrplContext.tsx line 28: ceiling for the exponential backoff delay. -/
def MAX_BACKOFF_DELAY : Nat := 30000

/-- XrplContext.tsx line 30: idle window of the web context. -/
def IDLE_TIMEOUT : Nat := 120000

/-- Number of entries of MAINNET_NODES in XrplContext.tsx lines 20-25. -/
def mainnetNodeCount : Nat := 4

/-- XrplContext.tsx line 306: `const maxAttempts = MAINNET_NODES.length * 2`. -/
def maxAttempts : Nat := mainnetNodeCount * 2

/-- ConnectionManager (xrpl utility module) line 189: cleanup after
30 seconds of inactivity. -/
def CLEANUP_DELAY : Nat := 30000

/-! ## WalletContext balance cache (WalletContext.tsx lines 230-266) -/

/-- WalletContext.tsx lines 7-10: a cached record is a timestamp plus the
stored data (a balance string for the balance cache). -/
structure CachedData where
  timestamp : Nat
  data : String
  deriving DecidableEq, Repr

/-- WalletContext.tsx lines 230-238: `setCachedBalance` stores the balance
under the address, stamped with the current time, leaving other keys of the
record untouched. -/
def setCachedBalance (m : String → Option CachedData) (now : Nat)
    (address balance : String) : String → Option CachedData :=
  fun a => if a = address then some ⟨now, balance⟩ else m a

/-- WalletContext.tsx lines 260-266: `getCachedBalance` returns the stored
data while strictly younger than CACHE_DURATION, and null otherwise. -/
def getCachedBalance (m : String → Option CachedData) (now : Nat)
    (address : String) : Option String :=
  match m address with
  | some cached => if now - cached.timestamp < CACHE_DURATION then some cached.data else none
  | none => none

/-! ## formatCurrencyCode (xrpl utility module lines 297-321) -/

/-- Character class of the regex `[0-9A-F]` with the `i` flag: a hex digit
in either case. -/
def isHexDigitChar (c : Char) : Bool :=
  (('0' ≤ c && c ≤ '9') || ('A' ≤ c && c ≤ 'F') || ('a' ≤ c && c ≤ 'f'))

/-- Test of the regex `/^[0-9A-F]{40}$/i`. -/
def isHex40 (s : String) : Bool :=
  s.data.length == 40 && s.data.all isHexDigitChar

/-- Character class of the regex `[A-Z0-9]` (no `i` flag). -/
def isUpperAlnumChar (c : Char) : Bool :=
  (('A' ≤ c && c ≤ 'Z') || ('0' ≤ c && c ≤ '9'))

/-- Test of the regex `/^[A-Z0-9]{3}$/`. -/
def isUpperAlnum3 (s : String) : Bool :=
  s.data.length == 3 && s.data.all isUpperAlnumChar

/-- JavaScript `String.prototype.padEnd` on a char list: append `pad` until
the length reaches `n` (no-op when already at least `n` long). -/
def padEndList (l : List Char) (n : Nat) (pad : Char) : List Char :=
  l ++ List.replicate (n - l.length) pad

/-- JavaScript `charCode.toString(16).padStart(2, '0')`: lowercase hex
digits of the code, left-padded to at least two digits.  Codes above 0xFF
produce three or four digits, which `padStart` does not trim. -/
def charCodeHex (n : Nat) : List Char :=
  let d := Nat.toDigits 16 n
  List.replicate (2 - d.length) '0' ++ d

/-- JavaScript `toUpperCase`, modelled character-wise; the sources only
ever rely on its action on ASCII letters and digits. -/
def jsToUpper (s : List Char) : List Char :=
  s.map Char.toUpper

/-- The xrpl utility module lines 297-321, `formatCurrencyCode`: a
40-character hex code is uppercased and kept; a 3-character uppercase
alphanumeric code is kept verbatim; anything else is uppercased, padded
with NUL to 20 characters, hex encoded per UTF-16 code unit, padded with
zeros to 40 characters, and uppercased.  (The final `padEnd(40, '0')`
lengthens but never truncates.) -/
def formatCurrencyCode (currency : String) : String :=
  if isHex40 currency then
    String.mk (jsToUpper currency.data)
  else if isUpperAlnum3 currency then
    currency
  else
    let paddedCurrency := padEndList (jsToUpper currency.data) 20 (Char.ofNat 0)
    let hex := paddedCurrency.flatMap (fun c => charCodeHex c.toNat)
    String.mk (jsToUpper (padEndList hex 40 '0'))

/-! ## getBalance and getTrustlines (xrpl utility module lines 251-295) -/

/-- Trustline record, xrpl utility module lines 112-120. -/
structure Trustline where
  account : String
  balance : String
  currency : String
  limit : String
  limit_peer : String
  quality_in : Nat
  quality_out : Nat
  deriving DecidableEq, Repr

/-- The xrpl utility module lines 251-272, `getBalance`.  The external
collaborators are passed in: `dropsToXrp` is the xrpl.js conversion,
`ensureRes` the outcome of the injected `ensureConnection` call, and
`reqRes` the outcome of the `account_info` request (drops on success,
error message on failure).  The catch block maps any error whose message
contains `Account not found` to the balance string `0` and rethrows every
other error. -/
def getBalance (dropsToXrp : String → String) (ensureRes : Except String Unit)
    (reqRes : Except String String) : Except String String :=
  let body : Except String String := do
    let _ ← ensureRes
    let drops ← reqRes
    pure (dropsToXrp drops)
  match body with
  | .ok v => .ok v
  | .error e =>
    if includesStr e "Account not found" then .ok "0" else .error e

/-- The xrpl utility module lines 274-295, `getTrustlines`: same shape as
`getBalance` with the `account_lines` request; the catch block maps an
`Account not found` error to the empty list. -/
def getTrustlines (ensureRes : Except String Unit)
    (reqRes : Except String (List Trustline)) : Except String (List Trustline) :=
  let body : Except String (List Trustline) := do
    let _ ← ensureRes
    let lines ← reqRes
    pure lines
  match body with
  | .ok v => .ok v
  | .error e =>
    if includesStr e "Account not found" then .ok [] else .error e

/-! ## ConnectionManager, sequential call model (xrpl utility module lines 122-215)

A single top-level call (`ensureConnection`, `disconnect`, or a cleanup
timer firing) is modelled as running to completion; the interleaving
semantics needed for the concurrency claim is the transition system
further down.  Manager state carries the `isConnecting` flag, whether
`connectionQueue` holds a pending promise, and the pending cleanup
timeout as its virtual expiry instant. -/

/-- State of the `ConnectionManager` singleton (lines 125-128). -/
structure CMSeq where
  isConnecting : Bool
  hasQueue : Bool
  cleanupTimeout : Option Nat
  deriving DecidableEq, Repr

/-- Connection state of the xrpl.js client passed to the manager. -/
structure ClientState where
  connected : Bool
  deriving DecidableEq, Repr

/-- Result of a manager call: returned normally, returned the already
pending attempt's promise, or threw. -/
inductive CallRes where
  | ok
  | awaitedExisting
  | threw
  deriving DecidableEq, Repr

/-- ConnectionManager lines 166-196, `ensureConnection`, as one sequential
call at virtual time `now`; `attemptOk` is whether the
`waitForConnection` attempt (lines 139-164) would succeed.  Returns the
new manager state, the new client state, the call result, and whether a
new connection attempt was initiated.

Translation notes: the early return on a connected client (lines 167-169)
touches nothing; the join branch (lines 172-174) returns the pending
promise; otherwise the attempt runs, on success clearing any previous
cleanup timeout and arming one for `now + CLEANUP_DELAY` (lines 182-189),
and the `finally` block (lines 192-195) resets both flags on either
outcome. -/
def cmEnsureConnection (m : CMSeq) (c : ClientState) (now : Nat)
    (attemptOk : Bool) : CMSeq × ClientState × CallRes × Bool :=
  if c.connected then
    (m, c, .ok, false)
  else if m.isConnecting && m.hasQueue then
    (m, c, .awaitedExisting, false)
  else if attemptOk then
    (⟨false, false, some (now + CLEANUP_DELAY)⟩, ⟨true⟩, .ok, true)
  else
    (⟨false, false, m.cleanupTimeout⟩, c, .threw, true)

/-- ConnectionManager lines 198-214, `disconnect`: clears the cleanup
timeout, disconnects the client when connected (any error from the
client's own disconnect is caught and only logged, lines 208-210), and
the `finally` block resets both flags.  The call never throws. -/
def cmDisconnect (m : CMSeq) (c : ClientState) : CMSeq × ClientState × CallRes :=
  (⟨false, false, none⟩, ⟨false⟩, .ok)

/-- ConnectionManager lines 185-189: the cleanup timeout callback
disconnects the client when it is still connected and otherwise does
nothing. -/
def cmFire (m : CMSeq) (c : ClientState) : CMSeq × ClientState :=
  if c.connected then
    ((cmDisconnect m c).1, (cmDisconnect m c).2.1)
  else
    (m, c)

/-! ## XrplContext ensureConnection retry loop (XrplContext.tsx lines 280-344) -/

/-- XrplContext.tsx lines 322: an error rotates nodes when its message
contains `noPermission` or `connection` (case-sensitive, so the local
`Connection timeout` and `Connection closed` messages do not match). -/
def isRotationError (msg : String) : Bool :=
  includesStr msg "noPermission" || includesStr msg "connection"

/-- Mutable locals of the retry loop (lines 304-306) together with the
`backoffTime` field of `connectionRef` that the delay formula reads. -/
structure LoopState where
  attempts : Nat
  nodeIndex : Nat
  backoffTime : Nat
  deriving DecidableEq, Repr

/-- Observable events of one run of the retry loop: a connection attempt
on a node, a rotation to a new node index, a backoff sleep of a given
duration. -/
inductive Ev where
  | attempt (nodeIndex : Nat)
  | rotate (toIndex : Nat)
  | backoff (delay : Nat)
  deriving DecidableEq, Repr

/-- Result of one iteration of the `while (attempts < maxAttempts)` loop. -/
inductive IterRes where
  | conn (st : LoopState) (tr : List Ev)
  | thr (msg : String) (tr : List Ev)
  | next (st : LoopState) (tr : List Ev)
  deriving DecidableEq, Repr

/-- One iteration of XrplContext.tsx lines 308-339.  `outcome k = none`
means the `k`-th `waitForConnection` call (counting every attempt of this
run) succeeds; `outcome k = some msg` means it rejects with message
`msg`.

Translation notes: on success `waitForConnection` resets `backoffTime` to
RECONNECT_DELAY (line 244) and the loop returns (lines 310-316).  On
failure `attempts` is incremented (line 319); a rotation-class error
switches to the next node index modulo the node count and undoes the
increment via `Math.max(0, attempts - 1)` (lines 322-325); otherwise,
when the incremented counter has hit `maxAttempts` the original error is
rethrown (lines 326-327), else the loop sleeps for
`min(backoffTime * 2 ^ (attempts - 1), MAX_BACKOFF_DELAY)` and retries on
the same node (lines 328-335).  When the loop guard fails the code after
the loop throws `Failed to connect after maximum attempts` (line 339). -/
def xcLoopIter (outcome : Nat → Option String) (k : Nat) (st : LoopState) : IterRes :=
  if st.attempts < maxAttempts then
    match outcome k with
    | none => .conn ⟨st.attempts, st.nodeIndex, RECONNECT_DELAY⟩ [.attempt st.nodeIndex]
    | some msg =>
      let a := st.attempts + 1
      if isRotationError msg then
        let ni := (st.nodeIndex + 1) % mainnetNodeCount
        .next ⟨Nat.max 0 (a - 1), ni, st.backoffTime⟩ [.attempt st.nodeIndex, .rotate ni]
      else if a = maxAttempts then
        .thr msg [.attempt st.nodeIndex]
      else
        let d := Nat.min (st.backoffTime * 2 ^ (a - 1)) MAX_BACKOFF_DELAY
        .next ⟨a, st.nodeIndex, st.backoffTime⟩ [.attempt st.nodeIndex, .backoff d]
  else
    .thr "Failed to connect after maximum attempts" []

/-- Final status of a run of the retry loop. -/
inductive RunOut where
  | connected
  | threw (msg : String)
  | fuelOut
  deriving DecidableEq, Repr

/-- The whole retry loop, iterated with explicit fuel (the loop can run
forever, see the rotation analysis below): returns the status, the final
loop state, and the concatenated event trace. -/
def xcLoopGo (outcome : Nat → Option String) : Nat → Nat → LoopState → RunOut × LoopState × List Ev
  | 0, _, st => (.fuelOut, st, [])
  | fuel + 1, k, st =>
    match xcLoopIter outcome k st with
    | .conn stF tr => (.connected, stF, tr)
    | .thr m tr => (.threw m, st, tr)
    | .next stN tr =>
      let r := xcLoopGo outcome fuel (k + 1) stN
      (r.1, r.2.1, tr ++ r.2.2)

/-- Number of connection attempts recorded in a trace. -/
def countAttempts (tr : List Ev) : Nat :=
  (tr.filter fun e => match e with | .attempt _ => true | _ => false).length

/-- Loop state at entry of the retry loop (lines 304-306): the local
`attempts` counter starts at 0, the node index and backoff time are read
from `connectionRef`. -/
def xcInitLoop (nodeIndex backoffTime : Nat) : LoopState :=
  ⟨0, nodeIndex, backoffTime⟩

/-- State of the XrplContext provider that the sequential-call model
tracks: the idle timer (`connectionRef.timeoutId`) as a virtual expiry
instant, the current node index, and the backoff time. -/
structure XcSt where
  timeoutId : Option Nat
  currentNodeIndex : Nat
  backoffTime : Nat
  deriving DecidableEq, Repr

/-- Result of one sequential `ensureConnection` call of the XrplContext. -/
inductive XcCallRes where
  | refreshed
  | connectedNew
  | threwErr (msg : String)
  | outOfFuel
  deriving DecidableEq, Repr

/-- XrplContext.tsx lines 280-344, `ensureConnection`, as one sequential
call at virtual time `now` on a client whose connection flag is
`connected`.

Translation notes: when the client is connected (lines 291-299) the call
clears any pending idle timer, arms a fresh one for `now + IDLE_TIMEOUT`,
and returns without touching anything else.  Otherwise the retry loop
runs; on success the idle timer is armed (lines 311-313; virtual time is
kept at `now`, the backoff delays spent inside the loop are recorded in
the trace); on a throw the outer catch (lines 340-343) runs
`cleanup(client)`, which clears the idle timer but, given a client
argument, does not reset the node index, and rethrows.  The two optional
sleeps at lines 281-289 do not modify this state and are not recorded. -/
def xcEnsureConnection (x : XcSt) (connected : Bool) (now : Nat)
    (outcome : Nat → Option String) (fuel : Nat) : XcSt × XcCallRes × List Ev :=
  if connected then
    ({ x with timeoutId := some (now + IDLE_TIMEOUT) }, .refreshed, [])
  else
    match xcLoopGo outcome fuel 0 (xcInitLoop x.currentNodeIndex x.backoffTime) with
    | (.connected, stF, tr) =>
      (⟨some (now + IDLE_TIMEOUT), stF.nodeIndex, stF.backoffTime⟩, .connectedNew, tr)
    | (.threw m, stF, tr) =>
      (⟨none, stF.nodeIndex, stF.backoffTime⟩, .threwErr m, tr)
    | (.fuelOut, stF, tr) =>
      (⟨x.timeoutId, stF.nodeIndex, stF.backoffTime⟩, .outOfFuel, tr)

/-- XrplContext.tsx lines 295-297 and 311-313: the idle timer callback
runs `cleanup(client)`, which clears the timer and disconnects the
client. -/
def xcFire (x : XcSt) (c : ClientState) : XcSt × ClientState :=
  ({ x with timeoutId := none }, ⟨false⟩)

/-! ## ConnectionManager interleaving machine (xrpl utility module lines 166-196)

Overlapping `ensureConnection` calls on the singleton are modelled as
tasks that interleave at `await` points.  A connection attempt is one
`waitForConnection` promise; it is identified by the value of a counter
at its creation, is in flight from creation until it settles, and the
environment settles it at an arbitrary later point.  The body of
`ensureConnection` has no `await` between its first line and the
assignment of `connectionQueue` (lines 167-178), so that whole span is a
single atomic step of the owning task. -/

/-- Program counter of one `ensureConnection` task: at entry; the owner
of attempt `a`, suspended at `await this.connectionQueue` (line 179) and
due to run the `finally` block; or a joiner that received the pending
promise of attempt `a` (line 173) and awaits it. -/
inductive CMPC where
  | entry
  | waitOwner (a : Nat)
  | waitNonOwner (a : Nat)
  deriving DecidableEq, Repr

/-- Interleaving state: the manager flags, the client connection flag,
the list of unsettled attempts, a fresh-id counter, and the suspended
tasks. -/
structure CMMachine where
  isConnecting : Bool
  connectionQueue : Option Nat
  connected : Bool
  inFlight : List Nat
  nextId : Nat
  tasks : List CMPC
  deriving DecidableEq, Repr

/-- Transitions of the ConnectionManager interleaving machine.  Task
steps pick a task by a list decomposition; environment steps settle an
attempt or drop the client connection. -/
inductive CMStep : CMMachine → CMMachine → Prop where
  | spawn (s : CMMachine) :
      CMStep s { s with tasks := .entry :: s.tasks }
  | finishConnected (s : CMMachine) (l r : List CMPC)
      (h : s.tasks = l ++ .entry :: r) (hc : s.connected = true) :
      CMStep s { s with tasks := l ++ r }
  | joinWait (s : CMMachine) (l r : List CMPC) (a : Nat)
      (h : s.tasks = l ++ .entry :: r) (hc : s.connected = false)
      (hg : s.isConnecting = true ∧ s.connectionQueue = some a) :
      CMStep s { s with tasks := l ++ .waitNonOwner a :: r }
  | startAttempt (s : CMMachine) (l r : List CMPC)
      (h : s.tasks = l ++ .entry :: r) (hc : s.connected = false)
      (hg : ¬(s.isConnecting = true ∧ s.connectionQueue.isSome = true)) :
      CMStep s { isConnecting := true, connectionQueue := some s.nextId,
                 connected := false, inFlight := s.nextId :: s.inFlight,
                 nextId := s.nextId + 1,
                 tasks := l ++ .waitOwner s.nextId :: r }
  | settleOk (s : CMMachine) (a : Nat) (h : a ∈ s.inFlight) :
      CMStep s { s with connected := true, inFlight := s.inFlight.erase a }
  | settleFail (s : CMMachine) (a : Nat) (h : a ∈ s.inFlight) :
      CMStep s { s with inFlight := s.inFlight.erase a }
  | ownerDone (s : CMMachine) (l r : List CMPC) (a : Nat)
      (h : s.tasks = l ++ .waitOwner a :: r) (hs : a ∉ s.inFlight) :
      CMStep s { s with isConnecting := false, connectionQueue := none,
                        tasks := l ++ r }
  | nonOwnerDone (s : CMMachine) (l r : List CMPC) (a : Nat)
      (h : s.tasks = l ++ .waitNonOwner a :: r) (hs : a ∉ s.inFlight) :
      CMStep s { s with tasks := l ++ r }
  | connLost (s : CMMachine) :
      CMStep s { s with connected := false }

/-- The manager singleton starts disconnected with no pending attempt. -/
def cmInit : CMMachine :=
  ⟨false, none, false, [], 0, []⟩

/-- States reachable from the initial manager state under interleaved
`ensureConnection` calls. -/
def CMReach (s : CMMachine) : Prop :=
  Relation.ReflTransGen CMStep cmInit s

/-- Attempt ids owned by some task suspended at line 179's `await`. -/
def ownersOf (l : List CMPC) : List Nat :=
  l.filterMap fun pc => match pc with | .waitOwner a => some a | _ => none

/-- Inductive invariant of the ConnectionManager machine: at most one
unsettled attempt; any unsettled attempt is the one recorded in
`connectionQueue`, with `isConnecting` set and a unique owning task; and
an owning task can exist only while the flags are set. -/
def CMInv (s : CMMachine) : Prop :=
  s.inFlight.length ≤ 1 ∧
  (∀ a ∈ s.inFlight,
    s.isConnecting = true ∧ s.connectionQueue = some a ∧ a ∈ ownersOf s.tasks) ∧
  (ownersOf s.tasks).length ≤ 1 ∧
  (∀ a ∈ ownersOf s.tasks, s.isConnecting = true ∧ s.connectionQueue.isSome = true)

/-! ## XrplContext interleaving machine (XrplContext.tsx lines 280-344)

Unlike the ConnectionManager, the XrplContext `ensureConnection` keeps no
record of a pending attempt: `connectionRef.promise` is declared (line
68) but never written or read, and nothing guards the span between the
`isConnected()` check (line 291) and the `waitForConnection` call (line
310).  Overlapping calls are tasks; the optional sleeps at lines 281-289
are `await` points before the connected check, so a second task can reach
`waitForConnection` while the first task's attempt is still in flight.
Each attempt is a `client.connect()` initiated by `waitForConnection`
(lines 226-278); settled attempts are recorded with their outcome so a
task can resume with the matching branch of lines 310-336. -/

/-- Program counter of one XrplContext `ensureConnection` task: at entry
(before the line 291 connected check), or inside the retry loop awaiting
attempt `a` with the local `attempts` counter at `k`. -/
inductive XcPC where
  | entry
  | waiting (a : Nat) (k : Nat)
  deriving DecidableEq, Repr

/-- Interleaving state of the XrplContext provider: client connection
flag, unsettled attempts, settled attempts by outcome, fresh-id counter,
and the suspended tasks. -/
structure XcMach where
  connected : Bool
  inFlight : List Nat
  succeeded : List Nat
  failedRotation : List Nat
  failedGeneric : List Nat
  nextId : Nat
  tasks : List XcPC
  deriving DecidableEq, Repr

/-- Transitions of the XrplContext interleaving machine.  `startAttempt`
has no guard beyond the client being disconnected: this is the code's
behaviour, and is what the concurrency counterexample exercises. -/
inductive XcStep : XcMach → XcMach → Prop where
  | spawn (s : XcMach) :
      XcStep s { s with tasks := .entry :: s.tasks }
  | finishConnected (s : XcMach) (l r : List XcPC)
      (h : s.tasks = l ++ .entry :: r) (hc : s.connected = true) :
      XcStep s { s with tasks := l ++ r }
  | startAttempt (s : XcMach) (l r : List XcPC)
      (h : s.tasks = l ++ .entry :: r) (hc : s.connected = false) :
      XcStep s { s with inFlight := s.nextId :: s.inFlight,
                        nextId := s.nextId + 1,
                        tasks := l ++ .waiting s.nextId 0 :: r }
  | settleOk (s : XcMach) (a : Nat) (h : a ∈ s.inFlight) :
      XcStep s { s with connected := true, inFlight := s.inFlight.erase a,
                        succeeded := a :: s.succeeded }
  | settleRotation (s : XcMach) (a : Nat) (h : a ∈ s.inFlight) :
      XcStep s { s with inFlight := s.inFlight.erase a,
                        failedRotation := a :: s.failedRotation }
  | settleGeneric (s : XcMach) (a : Nat) (h : a ∈ s.inFlight) :
      XcStep s { s with inFlight := s.inFlight.erase a,
                        failedGeneric := a :: s.failedGeneric }
  | resumeOk (s : XcMach) (l r : List XcPC) (a k : Nat)
      (h : s.tasks = l ++ .waiting a k :: r) (hs : a ∈ s.succeeded) :
      XcStep s { s with tasks := l ++ r }
  | retryRotate (s : XcMach) (l r : List XcPC) (a k : Nat)
      (h : s.tasks = l ++ .waiting a k :: r) (hs : a ∈ s.failedRotation)
      (hk : k < maxAttempts) :
      XcStep s { s with inFlight := s.nextId :: s.inFlight,
                        nextId := s.nextId + 1,
                        tasks := l ++ .waiting s.nextId (Nat.max 0 (k + 1 - 1)) :: r }
  | retryBackoff (s : XcMach) (l r : List XcPC) (a k : Nat)
      (h : s.tasks = l ++ .waiting a k :: r) (hs : a ∈ s.failedGeneric)
      (hk : k + 1 < maxAttempts) :
      XcStep s { s with inFlight := s.nextId :: s.inFlight,
                        nextId := s.nextId + 1,
                        tasks := l ++ .waiting s.nextId (k + 1) :: r }
  | throwMax (s : XcMach) (l r : List XcPC) (a k : Nat)
      (h : s.tasks = l ++ .waiting a k :: r) (hs : a ∈ s.failedGeneric)
      (hk : k + 1 = maxAttempts) :
      XcStep s { s with tasks := l ++ r }
  | connLost (s : XcMach) :
      XcStep s { s with connected := false }

/-- The provider starts disconnected with no attempt and no task. -/
def xcMachInit : XcMach :=
  ⟨false, [], [], [], [], 0, []⟩

/-- States reachable from the initial XrplContext provider state under
interleaved `ensureConnection` calls. -/
def XcReach (s : XcMach) : Prop :=
  Relation.ReflTransGen XcStep xcMachInit s

/-- Reachable witness state in which two connection attempts are
simultaneously in flight: two callers each passed the disconnected check
and each initiated its own `waitForConnection`. -/
def xcTwoAttemptsState : XcMach :=
  ⟨false, [1, 0], [], [], [], 2, [.waiting 0 0, .waiting 1 0]⟩

/-! ## Claim C8: cache round-trip -/

/-- C8: storing a balance with `setCachedBalance` and reading it back with
`getCachedBalance` strictly before CACHE_DURATION has elapsed returns
exactly the stored balance; reading at or after expiry returns null. -/
theorem cache_roundtrip (m : String → Option CachedData) (t0 t1 : Nat)
    (address balance : String) :
    (t1 - t0 < CACHE_DURATION →
      getCachedBalance (setCachedBalance m t0 address balance) t1 address = some balance) ∧
    (CACHE_DURATION ≤ t1 - t0 →
      getCachedBalance (setCachedBalance m t0 address balance) t1 address = none) := by
  refine ⟨fun h => ?_, fun h => ?_⟩
  · simp [getCachedBalance, setCachedBalance, h]
  · simp [getCachedBalance, setCachedBalance, Nat.not_lt.mpr h]

/-- Witness for C8 at concrete times: a write at time 0 is readable at
time 10000 and expired at time 30000. -/
theorem cache_roundtrip_witness :
    getCachedBalance (setCachedBalance (fun _ => none) 0 "rTestAddress" "42") 10000
      "rTestAddress" = some "42" ∧
    getCachedBalance (setCachedBalance (fun _ => none) 0 "rTestAddress" "42") 30000
      "rTestAddress" = none :=
  ⟨(cache_roundtrip (fun _ => none) 0 10000 "rTestAddress" "42").1 (by decide),
   (cache_roundtrip (fun _ => none) 0 30000 "rTestAddress" "42").2 (by decide)⟩

/-! ## Claim C10: account-not-found suppression -/

/-- C10: when the underlying request fails with a message containing
`Account not found`, `getBalance` returns the string 0 and
`getTrustlines` returns the empty list (also when the injected
`ensureConnection` is the failing part, since the catch wraps it); every
other error is rethrown unchanged. -/
theorem notfound_suppressed (dropsToXrp : String → String) (e : String) :
    (includesStr e "Account not found" = true →
      getBalance dropsToXrp (.ok ()) (.error e) = .ok "0" ∧
      getTrustlines (.ok ()) (.error e) = .ok [] ∧
      getBalance dropsToXrp (.error e) (.ok "1000000") = .ok "0" ∧
      getTrustlines (.error e) (.ok []) = .ok []) ∧
    (includesStr e "Account not found" = false →
      getBalance dropsToXrp (.ok ()) (.error e) = .error e ∧
      getTrustlines (.ok ()) (.error e) = .error e ∧
      getBalance dropsToXrp (.error e) (.ok "1000000") = .error e ∧
      getTrustlines (.error e) (.ok []) = .error e) := by
  refine ⟨fun h => ?_, fun h => ?_⟩ <;>
    simp [getBalance, getTrustlines, bind, Except.bind, h]

/-- Witness for C10 at concrete error messages. -/
theorem notfound_suppressed_witness :
    getBalance (fun s => s) (.ok ()) (.error "Account not found.") = .ok "0" ∧
    getTrustlines (.ok ()) (.error "Connection timeout") = .error "Connection timeout" :=
  ⟨((notfound_suppressed (fun s => s) "Account not found.").1 (by decide)).1,
   (((notfound_suppressed (fun s => s) "Connection timeout").2 (by decide)).2).1⟩

/-! ## Claim C9: formatCurrencyCode output length -/

/-- C9 (code bug): the fallback branch of `formatCurrencyCode` promises,
per its own comment, a result of exactly 40 characters, but a character
whose UTF-16 code exceeds 0xFF hex encodes to more than two digits and
`padEnd(40, '0')` never truncates: the two-character input consisting of
the letter with code 0x100 followed by the letter B yields a 41-character
currency field, which is not a valid 40-character XRPL currency code.
The non-fallback branches behave as claimed, as the other two conjuncts
record. -/
theorem formatCurrencyCode_length_bug :
    (formatCurrencyCode "ĀB").data.length = 41 ∧
    formatCurrencyCode "USD" = "USD" ∧
    formatCurrencyCode "0123456789abcdef0123456789abcdef01234567"
      = "0123456789ABCDEF0123456789ABCDEF01234567" := by
  refine ⟨by decide, by decide, by decide⟩

/-! ## Claim C7: disconnect is idempotent -/

/-- C7: `ConnectionManager.disconnect` tears the connection down, clears
the pending cleanup timer and the connecting flags, never throws (its
catch block swallows client errors), and a second call on the resulting
already-disconnected state returns exactly the same state. -/
theorem cmDisconnect_idempotent (m : CMSeq) (c : ClientState) :
    (cmDisconnect m c).1 = ⟨false, false, none⟩ ∧
    (cmDisconnect m c).2.1.connected = false ∧
    (cmDisconnect m c).2.2 = .ok ∧
    cmDisconnect (cmDisconnect m c).1 (cmDisconnect m c).2.1 = cmDisconnect m c :=
  ⟨rfl, rfl, rfl, rfl⟩

/-! ## Claim C3: ensureConnection on an already-connected client -/

/-- C3 counterexample: in the `ConnectionManager`, `ensureConnection` on
an already-connected client returns without touching the pending cleanup
timeout, so a call at time 10000 with the timer armed for 30000 does not
reset it to the full idle window (which would be 10000 + CLEANUP_DELAY =
40000).  This falsifies the claim that the call "resets the
idle-disconnect timer to the full idle window" for the ConnectionManager
implementation it cites. -/
theorem cm_connected_call_keeps_timer :
    cmEnsureConnection ⟨false, false, some 30000⟩ ⟨true⟩ 10000 true
      = (⟨false, false, some 30000⟩, ⟨true⟩, .ok, false) ∧
    some 30000 ≠ some (10000 + CLEANUP_DELAY) :=
  ⟨rfl, by decide⟩

/-- C3 amended: a call on an already-connected client initiates no
connection attempt in either implementation and returns normally; the
XrplContext implementation rearms the idle timer for the full
IDLE_TIMEOUT window, while the ConnectionManager returns with its entire
state, the pending cleanup timeout included, unchanged. -/
theorem ensureConnection_connected_fast (m : CMSeq) (c : ClientState) (now : Nat)
    (attemptOk : Bool) (x : XcSt) (t : Nat) (outcome : Nat → Option String)
    (fuel : Nat) (hc : c.connected = true) :
    cmEnsureConnection m c now attemptOk = (m, c, .ok, false) ∧
    xcEnsureConnection x true t outcome fuel
      = ({ x with timeoutId := some (t + IDLE_TIMEOUT) }, .refreshed, []) := by
  constructor
  · simp [cmEnsureConnection, hc]
  · simp [xcEnsureConnection]

/-- Witness for C3 amended at a concrete connected client. -/
theorem ensureConnection_connected_fast_witness :
    cmEnsureConnection ⟨false, false, none⟩ ⟨true⟩ 5 true
      = (⟨false, false, none⟩, ⟨true⟩, .ok, false) ∧
    xcEnsureConnection ⟨none, 0, 2000⟩ true 7 (fun _ => none) 3
      = (⟨some (7 + IDLE_TIMEOUT), 0, 2000⟩, .refreshed, []) :=
  ensureConnection_connected_fast ⟨false, false, none⟩ ⟨true⟩ 5 true
    ⟨none, 0, 2000⟩ 7 (fun _ => none) 3 rfl

/-! ## Claim C4: idle-timeout disconnect -/

/-- C4 counterexample: in the `ConnectionManager`, activity does not
postpone the idle disconnect.  A successful connect at time 0 arms the
cleanup timer for 30000; an `ensureConnection` call at time 10000 on the
connected client leaves the timer at 30000 rather than moving it to
40000; when the timer fires the client is disconnected — even though
activity happened inside the window. -/
theorem cm_activity_does_not_postpone :
    cmEnsureConnection ⟨false, false, none⟩ ⟨false⟩ 0 true
      = (⟨false, false, some 30000⟩, ⟨true⟩, .ok, true) ∧
    cmEnsureConnection ⟨false, false, some 30000⟩ ⟨true⟩ 10000 true
      = (⟨false, false, some 30000⟩, ⟨true⟩, .ok, false) ∧
    some 30000 ≠ some (10000 + CLEANUP_DELAY) ∧
    cmFire ⟨false, false, some 30000⟩ ⟨true⟩ = (⟨false, false, none⟩, ⟨false⟩) :=
  ⟨rfl, rfl, by decide, rfl⟩

/-- C4 amended: in the web context the idle window is IDLE_TIMEOUT =
120000 ms, every `ensureConnection` call on a connected client rearms the
timer for the full window (postponing the disconnect), and the timer
firing disconnects the client and clears the timer.  In the
ConnectionManager the CLEANUP_DELAY = 30000 ms timer is armed only by a
successful connect; an `ensureConnection` call on the connected client
leaves it unchanged — activity does not postpone it — and its firing
disconnects the still-connected client. -/
theorem idle_timeout_disconnect (x : XcSt) (t : Nat) (outcome : Nat → Option String)
    (fuel : Nat) (c : ClientState) (m m2 : CMSeq) (c2 : ClientState)
    (now now2 : Nat) (ok : Bool) (hc2 : c2.connected = true) (hm2 : m2.isConnecting = false) :
    (xcEnsureConnection x true t outcome fuel).1.timeoutId = some (t + IDLE_TIMEOUT) ∧
    (xcFire x c).1.timeoutId = none ∧
    (xcFire x c).2.connected = false ∧
    (cmEnsureConnection m c2 now ok).1.cleanupTimeout = m.cleanupTimeout ∧
    (cmEnsureConnection m2 ⟨false⟩ now2 true).1.cleanupTimeout
      = some (now2 + CLEANUP_DELAY) ∧
    (cmFire m ⟨true⟩).2.connected = false := by
  refine ⟨?_, rfl, rfl, ?_, ?_, rfl⟩
  · simp [xcEnsureConnection]
  · simp [cmEnsureConnection, hc2]
  · simp [cmEnsureConnection, hm2]

/-- Witness for C4 amended at concrete states and times. -/
theorem idle_timeout_disconnect_witness :
    (xcEnsureConnection ⟨some 1, 0, 2000⟩ true 50 (fun _ => none) 1).1.timeoutId
      = some (50 + IDLE_TIMEOUT) ∧
    (cmEnsureConnection ⟨false, false, some 30000⟩ ⟨true⟩ 10000 true).1.cleanupTimeout
      = some 30000 :=
  ⟨(idle_timeout_disconnect ⟨some 1, 0, 2000⟩ 50 (fun _ => none) 1 ⟨true⟩
      ⟨false, false, some 30000⟩ ⟨false, false, none⟩ ⟨true⟩ 10000 0 true rfl rfl).1,
   (idle_timeout_disconnect ⟨some 1, 0, 2000⟩ 50 (fun _ => none) 1 ⟨true⟩
      ⟨false, false, some 30000⟩ ⟨false, false, none⟩ ⟨true⟩ 10000 0 true rfl rfl).2.2.2.1⟩

/-! ## Claim C5: rotation versus backoff on failure -/

/-- C5: inside the XrplContext retry loop, a failure whose message marks
a permission or protocol error (the code tests for the substrings
noPermission and connection) rotates to the next node — index advancing
by one modulo the node-list length — without counting against the attempt
bound; a generic timeout failure keeps the same node and schedules a
bounded exponential backoff delay before the retry. -/
theorem rotation_vs_backoff (outcome : Nat → Option String) (k : Nat) (st : LoopState)
    (msg : String) (hlt : st.attempts < maxAttempts) (hout : outcome k = some msg) :
    (isRotationError msg = true →
      xcLoopIter outcome k st =
        .next ⟨st.attempts, (st.nodeIndex + 1) % mainnetNodeCount, st.backoffTime⟩
          [.attempt st.nodeIndex, .rotate ((st.nodeIndex + 1) % mainnetNodeCount)]) ∧
    (isRotationError msg = false → st.attempts + 1 < maxAttempts →
      xcLoopIter outcome k st =
        .next ⟨st.attempts + 1, st.nodeIndex, st.backoffTime⟩
          [.attempt st.nodeIndex,
           .backoff (Nat.min (st.backoffTime * 2 ^ st.attempts) MAX_BACKOFF_DELAY)]) := by
  refine ⟨fun hr => ?_, fun hr h2 => ?_⟩
  · simp [xcLoopIter, hlt, hout, hr, Nat.add_sub_cancel, Nat.zero_max]
  · simp [xcLoopIter, hlt, hout, hr, Nat.ne_of_lt h2, Nat.add_sub_cancel]

/-- Witness for C5: a noPermission failure rotates from node 0 to node 1
while keeping the counter; a Connection timeout failure (whose message
does not contain the lowercase substring connection) stays on node 0 and
backs off for 2000 ms. -/
theorem rotation_vs_backoff_witness :
    xcLoopIter (fun _ => some "noPermission") 0 ⟨0, 0, 2000⟩
      = .next ⟨0, (0 + 1) % mainnetNodeCount, 2000⟩
          [.attempt 0, .rotate ((0 + 1) % mainnetNodeCount)] ∧
    xcLoopIter (fun _ => some "Connection timeout") 0 ⟨0, 0, 2000⟩
      = .next ⟨0 + 1, 0, 2000⟩
          [.attempt 0, .backoff (Nat.min (2000 * 2 ^ 0) MAX_BACKOFF_DELAY)] :=
  ⟨(rotation_vs_backoff (fun _ => some "noPermission") 0 ⟨0, 0, 2000⟩ "noPermission"
      (by decide) rfl).1 (by decide),
   (rotation_vs_backoff (fun _ => some "Connection timeout") 0 ⟨0, 0, 2000⟩
      "Connection timeout" (by decide) rfl).2 (by decide) (by decide)⟩

/-! ## Claim C6: exponential backoff bounded by MAX_BACKOFF_DELAY -/

/-- C6: the delay computed between consecutive failed attempts is tied
to the attempt counter at which it is computed: when the counter reaches
n = attempts + 1 on a generic (non-final) failure, the scheduled delay is
exactly min(RECONNECT_DELAY * 2 ^ (n - 1), MAX_BACKOFF_DELAY) — growing
exponentially with n — and is bounded by MAX_BACKOFF_DELAY = 30000.  The
backoffTime hypothesis is honest across whole runs: the field starts at
RECONNECT_DELAY and, as the last conjunct shows, every loop iteration
hands the next iteration the same backoffTime, so the formula applies at
every attempt count n reached in a run. -/
theorem backoff_delay_formula (outcome : Nat → Option String) (k : Nat)
    (st : LoopState) (msg : String) (hbt : st.backoffTime = RECONNECT_DELAY)
    (hout : outcome k = some msg) (hgen : isRotationError msg = false)
    (hlt : st.attempts + 1 < maxAttempts) :
    (xcLoopIter outcome k st
      = .next ⟨st.attempts + 1, st.nodeIndex, RECONNECT_DELAY⟩
          [.attempt st.nodeIndex,
           .backoff (Nat.min (RECONNECT_DELAY * 2 ^ (st.attempts + 1 - 1))
             MAX_BACKOFF_DELAY)]) ∧
    Nat.min (RECONNECT_DELAY * 2 ^ (st.attempts + 1 - 1)) MAX_BACKOFF_DELAY
      ≤ MAX_BACKOFF_DELAY ∧
    (∀ (k2 : Nat) (st2 stN : LoopState) (tr : List Ev),
      st2.backoffTime = RECONNECT_DELAY →
      xcLoopIter outcome k2 st2 = .next stN tr →
      stN.backoffTime = RECONNECT_DELAY) := by
  refine ⟨?_, Nat.min_le_right _ _, ?_⟩
  · have hlt0 : st.attempts < maxAttempts := Nat.lt_of_succ_lt hlt
    have hne : ¬(st.attempts + 1 = maxAttempts) := Nat.ne_of_lt hlt
    simp [xcLoopIter, hlt0, hout, hgen, hne, hbt, Nat.add_sub_cancel]
  · intro k2 st2 stN tr hbt2 hiter
    unfold xcLoopIter at hiter
    split at hiter
    · cases ho : outcome k2 with
      | none =>
        simp only [ho] at hiter
        simp at hiter
      | some m =>
        simp only [ho] at hiter
        by_cases hr : isRotationError m = true
        · rw [if_pos hr] at hiter
          injection hiter with h1 h2
          subst h1
          exact hbt2
        · rw [if_neg hr] at hiter
          by_cases hm : st2.attempts + 1 = maxAttempts
          · rw [if_pos hm] at hiter
            simp at hiter
          · rw [if_neg hm] at hiter
            injection hiter with h1 h2
            subst h1
            exact hbt2
    · simp at hiter

/-- Witness for C6 at the concrete attempt count n = 3: with backoffTime
at RECONNECT_DELAY, the third generic failure schedules
min(2000 * 2 ^ 2, 30000) = 8000 ms. -/
theorem backoff_delay_formula_witness :
    xcLoopIter (fun _ => some "Connection timeout") 3 ⟨2, 0, 2000⟩
      = .next ⟨2 + 1, 0, RECONNECT_DELAY⟩
          [.attempt 0,
           .backoff (Nat.min (RECONNECT_DELAY * 2 ^ (2 + 1 - 1)) MAX_BACKOFF_DELAY)] :=
  (backoff_delay_formula (fun _ => some "Connection timeout") 3 ⟨2, 0, 2000⟩
    "Connection timeout" rfl rfl (by decide) (by decide)).1

/-! ## Claim C2: bounded attempts and the terminal error -/

/-- Attempts recorded in a concatenated trace add up. -/
theorem countAttempts_append (l1 l2 : List Ev) :
    countAttempts (l1 ++ l2) = countAttempts l1 + countAttempts l2 := by
  simp [countAttempts, List.filter_append]

@[simp]
theorem countAttempts_nil : countAttempts [] = 0 := rfl

@[simp]
theorem countAttempts_cons_attempt (n : Nat) (l : List Ev) :
    countAttempts (.attempt n :: l) = countAttempts l + 1 := by
  simp [countAttempts, List.filter_cons]

@[simp]
theorem countAttempts_cons_rotate (n : Nat) (l : List Ev) :
    countAttempts (.rotate n :: l) = countAttempts l := by
  simp [countAttempts, List.filter_cons]

@[simp]
theorem countAttempts_cons_backoff (d : Nat) (l : List Ev) :
    countAttempts (.backoff d :: l) = countAttempts l := by
  simp [countAttempts, List.filter_cons]

/-- In a run where every attempt fails with a non-rotation error, the
retry loop starting at counter value `a` makes exactly `maxAttempts - a`
further attempts and rethrows the error of the final one. -/
theorem xcLoopGo_generic_exhaust (msgs : Nat → String)
    (h : ∀ j, isRotationError (msgs j) = false) :
    ∀ (fuel a k ni bt : Nat), a < maxAttempts → maxAttempts - a ≤ fuel →
      (xcLoopGo (fun j => some (msgs j)) fuel k ⟨a, ni, bt⟩).1
          = .threw (msgs (k + (maxAttempts - 1 - a))) ∧
        countAttempts (xcLoopGo (fun j => some (msgs j)) fuel k ⟨a, ni, bt⟩).2.2
          = maxAttempts - a := by
  intro fuel
  induction fuel with
  | zero =>
    intro a k ni bt ha hf
    omega
  | succ fuel ih =>
    intro a k ni bt ha hf
    by_cases hm : a + 1 = maxAttempts
    · have harg : maxAttempts - 1 - a = 0 := by omega
      simp [xcLoopGo, xcLoopIter, ha, h k, hm, harg]
      omega
    · have ha2 : a + 1 < maxAttempts := Nat.lt_of_le_of_ne (Nat.succ_le_of_lt ha) hm
      obtain ⟨ih1, ih2⟩ := ih (a + 1) (k + 1) ni bt ha2 (by omega)
      have harg : k + 1 + (maxAttempts - 1 - (a + 1)) = k + (maxAttempts - 1 - a) := by
        omega
      rw [harg] at ih1
      simp [xcLoopGo, xcLoopIter, ha, h k, hm, ih1, countAttempts_append, ih2]
      omega

/-- In a run where every attempt fails with a rotation-class error, the
attempt counter never advances and the loop never terminates: the result
is out-of-fuel for every fuel value. -/
theorem xcLoopGo_rotation_divergent :
    ∀ (fuel k : Nat) (st : LoopState), st.attempts < maxAttempts →
      (xcLoopGo (fun _ => some "noPermission") fuel k st).1 = .fuelOut := by
  intro fuel
  induction fuel with
  | zero =>
    intro k st h
    simp [xcLoopGo]
  | succ fuel ih =>
    intro k st h
    have hrot : isRotationError "noPermission" = true := by decide
    simp only [xcLoopGo, xcLoopIter, if_pos h, hrot, if_true]
    exact ih (k + 1)
      ⟨Nat.max 0 (st.attempts + 1 - 1), (st.nodeIndex + 1) % mainnetNodeCount,
        st.backoffTime⟩ (by simpa using h)

/-- C2 counterexample: with every attempt failing on a generic timeout,
the loop terminates after exactly maxAttempts = 8 attempts but rethrows
the last underlying error — `Connection timeout`, not the claimed
`Failed to connect after maximum attempts` (that throw site is
unreachable, since the loop guard can never be exited normally); and with
every attempt failing on a rotation-class error, 20 units of fuel yield
20 attempts — more than the claimed bound of 8 — with the loop still
running. -/
theorem ensureConnection_exhaust_counterexample :
    (xcLoopGo (fun _ => some "Connection timeout") 20 0 (xcInitLoop 0 RECONNECT_DELAY)).1
      = .threw "Connection timeout" ∧
    countAttempts ((xcLoopGo (fun _ => some "Connection timeout") 20 0
      (xcInitLoop 0 RECONNECT_DELAY)).2.2) = 8 ∧
    ("Connection timeout" ≠ "Failed to connect after maximum attempts") ∧
    countAttempts ((xcLoopGo (fun _ => some "noPermission") 20 0
      (xcInitLoop 0 RECONNECT_DELAY)).2.2) = 20 ∧
    (xcLoopGo (fun _ => some "noPermission") 20 0 (xcInitLoop 0 RECONNECT_DELAY)).1
      = .fuelOut := by
  refine ⟨by decide, by decide, by decide, by decide, by decide⟩

/-- C2 amended: when every connection attempt fails with a generic
(non-rotation) error, `ensureConnection` makes exactly
MAINNET_NODES.length * 2 = 8 attempts and then throws the last attempt's
own error (the `Failed to connect after maximum attempts` message is
unreachable); rotation-class failures are not counted against the bound,
and a run in which every attempt fails with a rotation-class error never
terminates. -/
theorem ensureConnection_bounded_generic (msgs : Nat → String)
    (h : ∀ j, isRotationError (msgs j) = false) :
    ((xcLoopGo (fun j => some (msgs j)) 100 0 (xcInitLoop 0 RECONNECT_DELAY)).1
        = .threw (msgs 7) ∧
      countAttempts ((xcLoopGo (fun j => some (msgs j)) 100 0
        (xcInitLoop 0 RECONNECT_DELAY)).2.2) = maxAttempts) ∧
    (∀ fuel k st, st.attempts < maxAttempts →
      (xcLoopGo (fun _ => some "noPermission") fuel k st).1 = .fuelOut) := by
  constructor
  · have e := xcLoopGo_generic_exhaust msgs h 100 0 0 0 RECONNECT_DELAY
      (by decide) (by decide)
    exact ⟨e.1, e.2⟩
  · intro fuel k st hst
    exact xcLoopGo_rotation_divergent fuel k st hst

/-- Witness for C2 amended with the concrete generic message. -/
theorem ensureConnection_bounded_generic_witness :
    (xcLoopGo (fun _ => some "Connection timeout") 100 0 (xcInitLoop 0 RECONNECT_DELAY)).1
      = .threw "Connection timeout" :=
  ((ensureConnection_bounded_generic (fun _ => "Connection timeout")
    (fun _ => (by decide : isRotationError "Connection timeout" = false))).1).1

/-! ## Claim C1: single in-flight connection attempt -/

@[simp]
theorem ownersOf_nil : ownersOf [] = [] := rfl

@[simp]
theorem ownersOf_cons_entry (l : List CMPC) :
    ownersOf (.entry :: l) = ownersOf l := rfl

@[simp]
theorem ownersOf_cons_owner (a : Nat) (l : List CMPC) :
    ownersOf (.waitOwner a :: l) = a :: ownersOf l := rfl

@[simp]
theorem ownersOf_cons_nonOwner (a : Nat) (l : List CMPC) :
    ownersOf (.waitNonOwner a :: l) = ownersOf l := rfl

@[simp]
theorem ownersOf_append (l r : List CMPC) :
    ownersOf (l ++ r) = ownersOf l ++ ownersOf r := by
  simp [ownersOf, List.filterMap_append]

/-- The initial manager state satisfies the invariant. -/
theorem cmInv_cmInit : CMInv cmInit :=
  ⟨by simp [cmInit], by simp [cmInit], by simp [cmInit, ownersOf],
   by simp [cmInit, ownersOf]⟩

/-- Every transition of the ConnectionManager machine preserves the
invariant. -/
theorem cmInv_step (s t : CMMachine) (hinv : CMInv s) (hstep : CMStep s t) :
    CMInv t := by
  obtain ⟨h1, h2, h3, h4⟩ := hinv
  cases hstep with
  | spawn =>
    refine ⟨h1, fun a ha => ?_, by simpa using h3, fun a ha => h4 a (by simpa using ha)⟩
    obtain ⟨hA, hB, hC⟩ := h2 a ha
    exact ⟨hA, hB, by simpa using hC⟩
  | finishConnected l r h hc =>
    have howners : ownersOf (l ++ r) = ownersOf s.tasks := by rw [h]; simp
    refine ⟨h1, fun a ha => ?_, ?_, fun a ha => ?_⟩
    · obtain ⟨hA, hB, hC⟩ := h2 a ha
      exact ⟨hA, hB, by rw [howners]; exact hC⟩
    · show (ownersOf (l ++ r)).length ≤ 1
      rw [howners]; exact h3
    · rw [howners] at ha
      exact h4 a ha
  | joinWait l r a h hc hg =>
    have howners : ownersOf (l ++ .waitNonOwner a :: r) = ownersOf s.tasks := by
      rw [h]; simp
    refine ⟨h1, fun b hb => ?_, ?_, fun b hb => ?_⟩
    · obtain ⟨hA, hB, hC⟩ := h2 b hb
      exact ⟨hA, hB, by rw [howners]; exact hC⟩
    · show (ownersOf (l ++ .waitNonOwner a :: r)).length ≤ 1
      rw [howners]; exact h3
    · rw [howners] at hb
      exact h4 b hb
  | startAttempt l r h hc hg =>
    have hnoowner : ownersOf s.tasks = [] := by
      by_contra hne
      obtain ⟨b, hb⟩ := List.exists_mem_of_ne_nil _ hne
      exact hg ⟨(h4 b hb).1, (h4 b hb).2⟩
    have hnofl : s.inFlight = [] := by
      by_contra hne
      obtain ⟨b, hb⟩ := List.exists_mem_of_ne_nil _ hne
      obtain ⟨hA, hB, hC⟩ := h2 b hb
      rw [hnoowner] at hC
      exact absurd hC (List.not_mem_nil b)
    have h5 : ownersOf l ++ ownersOf r = [] := by
      have h6 : ownersOf (l ++ CMPC.entry :: r) = [] := by rw [← h]; exact hnoowner
      simpa using h6
    have hl0 : ownersOf l = [] := (List.append_eq_nil.mp h5).1
    have hr0 : ownersOf r = [] := (List.append_eq_nil.mp h5).2
    refine ⟨?_, fun b hb => ?_, ?_, fun b hb => ?_⟩
    · show (s.nextId :: s.inFlight).length ≤ 1
      rw [hnofl]; simp
    · rw [hnofl] at hb
      simp at hb
      subst hb
      refine ⟨rfl, rfl, ?_⟩
      show s.nextId ∈ ownersOf (l ++ .waitOwner s.nextId :: r)
      simp
    · show (ownersOf (l ++ .waitOwner s.nextId :: r)).length ≤ 1
      simp [hl0, hr0]
    · simp only [ownersOf_append, ownersOf_cons_owner, hl0, hr0] at hb
      simp at hb
      subst hb
      exact ⟨rfl, rfl⟩
  | settleOk a h =>
    refine ⟨?_, fun b hb => h2 b (List.mem_of_mem_erase hb), h3, h4⟩
    exact le_trans (List.Sublist.length_le (List.erase_sublist a s.inFlight)) h1
  | settleFail a h =>
    refine ⟨?_, fun b hb => h2 b (List.mem_of_mem_erase hb), h3, h4⟩
    exact le_trans (List.Sublist.length_le (List.erase_sublist a s.inFlight)) h1
  | ownerDone l r a h hs =>
    have h5 : ownersOf s.tasks = ownersOf l ++ a :: ownersOf r := by rw [h]; simp
    have hlen := h3
    rw [h5] at hlen
    simp [List.length_append] at hlen
    have hl0 : ownersOf l = [] := List.eq_nil_of_length_eq_zero (by omega)
    have hr0 : ownersOf r = [] := List.eq_nil_of_length_eq_zero (by omega)
    have hnofl : s.inFlight = [] := by
      by_contra hne
      obtain ⟨b, hb⟩ := List.exists_mem_of_ne_nil _ hne
      obtain ⟨hA, hB, hC⟩ := h2 b hb
      rw [h5, hl0, hr0] at hC
      simp at hC
      subst hC
      exact hs hb
    refine ⟨h1, fun b hb => ?_, ?_, fun b hb => ?_⟩
    · rw [hnofl] at hb
      exact absurd hb (List.not_mem_nil b)
    · show (ownersOf (l ++ r)).length ≤ 1
      simp [hl0, hr0]
    · simp only [ownersOf_append, hl0, hr0] at hb
      simp at hb
  | nonOwnerDone l r a h hs =>
    have howners : ownersOf (l ++ r) = ownersOf s.tasks := by rw [h]; simp
    refine ⟨h1, fun b hb => ?_, ?_, fun b hb => ?_⟩
    · obtain ⟨hA, hB, hC⟩ := h2 b hb
      exact ⟨hA, hB, by rw [howners]; exact hC⟩
    · show (ownersOf (l ++ r)).length ≤ 1
      rw [howners]; exact h3
    · rw [howners] at hb
      exact h4 b hb
  | connLost =>
    exact ⟨h1, fun a ha => h2 a ha, h3, h4⟩

/-- C1 amended: in the ConnectionManager (the implementation that carries
the isConnecting/connectionQueue guard) every reachable state of the
interleaving machine has at most one connection attempt in flight, and no
transition taken while an attempt is in flight allocates a new attempt —
an arriving caller instead awaits the pending attempt's promise.  (The
XrplContext implementation has no such guard; see the counterexample.) -/
theorem cm_at_most_one_attempt (s : CMMachine) (h : CMReach s) :
    s.inFlight.length ≤ 1 ∧
    (∀ t, CMStep s t → s.inFlight ≠ [] → t.nextId = s.nextId) := by
  have hinv : CMInv s := by
    unfold CMReach at h
    induction h with
    | refl => exact cmInv_cmInit
    | tail _ hbc ih => exact cmInv_step _ _ ih hbc
  obtain ⟨h1, h2, h3, h4⟩ := hinv
  refine ⟨h1, fun t hstep hne => ?_⟩
  obtain ⟨b, hb⟩ := List.exists_mem_of_ne_nil _ hne
  obtain ⟨hA, hB, hC⟩ := h2 b hb
  cases hstep
  case startAttempt l r hh hc hg => exact absurd ⟨hA, by rw [hB]; rfl⟩ hg
  all_goals rfl

/-- Witness for C1 amended: the state reached by spawning one caller that
starts the first attempt is reachable and has one attempt in flight. -/
theorem cm_at_most_one_attempt_witness :
    (⟨true, some 0, false, [0], 1, [CMPC.waitOwner 0]⟩ : CMMachine).inFlight.length ≤ 1 :=
  (cm_at_most_one_attempt ⟨true, some 0, false, [0], 1, [CMPC.waitOwner 0]⟩
    (Relation.ReflTransGen.tail
      (Relation.ReflTransGen.tail Relation.ReflTransGen.refl (CMStep.spawn cmInit))
      (CMStep.startAttempt ⟨false, none, false, [], 0, [CMPC.entry]⟩ [] [] rfl rfl
        (by simp)))).1

/-- C1 counterexample: in the XrplContext implementation two overlapping
`ensureConnection` calls can each initiate their own `waitForConnection`
attempt — the machine reaches a state with two attempts simultaneously in
flight, falsifying the claim that at most one attempt is ever in flight
and that a second caller awaits the first caller's attempt. -/
theorem xc_two_attempts_in_flight :
    XcReach xcTwoAttemptsState ∧ xcTwoAttemptsState.inFlight.length = 2 := by
  constructor
  · exact Relation.ReflTransGen.tail
      (Relation.ReflTransGen.tail
        (Relation.ReflTransGen.tail
          (Relation.ReflTransGen.tail Relation.ReflTransGen.refl
            (XcStep.spawn xcMachInit))
          (XcStep.spawn ⟨false, [], [], [], [], 0, [.entry]⟩))
        (XcStep.startAttempt ⟨false, [], [], [], [], 0, [.entry, .entry]⟩ [] [.entry]
          rfl rfl))
      (XcStep.startAttempt ⟨false, [0], [], [], [], 1, [.waiting 0 0, .entry]⟩
        [.waiting 0 0] [] rfl rfl)
  · rfl
